import Mathlib

/-
Verification of the predictive-maintenance dashboard (src/app.py) against its
natural-language specification.  Floats of the source are modelled as rationals,
Python integers as Lean integers, the fallible dictionary lookup as Option, and
the fallible external calls (preprocessor transform, SHAP explainer, artifact
loading) as Except values supplied by black-box collaborator structures, in the
way section 2 of the specification describes them.
-/

namespace PredMaint

/-- A cell of the single-row input DataFrame: categorical values are strings,
float values are rationals, integer values are integers (app.py lines 77 to 94). -/
inductive Value : Type
  | cat : String → Value
  | num : ℚ → Value
  | int : ℤ → Value
deriving DecidableEq, Repr

/-- The raw operator-entered inputs gathered by the sidebar widgets
(app.py lines 24 to 53).  Select boxes yield strings, number inputs yield
floats or integers. -/
structure RawInputs : Type where
  machine_model : String
  temp : ℚ
  vibration : ℚ
  rot_speed : ℚ
  voltage : ℚ
  torque : ℚ
  oil_viscosity : ℚ
  humidity : ℚ
  operator_exp : String
  last_service_days : ℤ
  fault_code : String
  working_hours : ℤ
deriving DecidableEq, Repr

/-- Validity of raw inputs: the UI-level bounds of the widgets, which coincide
with the domains of the specification, section 3. -/
def RawInputs.valid (r : RawInputs) : Prop :=
  r.machine_model ∈ (["Model_A", "Model_B", "Model_C"] : List String) ∧
  0 ≤ r.temp ∧ r.temp ≤ 150 ∧
  0 ≤ r.vibration ∧ r.vibration ≤ 20 ∧
  0 ≤ r.rot_speed ∧ r.rot_speed ≤ 6000 ∧
  0 ≤ r.voltage ∧ r.voltage ≤ 300 ∧
  0 ≤ r.torque ∧ r.torque ≤ 200 ∧
  0 ≤ r.oil_viscosity ∧ r.oil_viscosity ≤ 100 ∧
  0 ≤ r.humidity ∧ r.humidity ≤ 100 ∧
  r.operator_exp ∈ (["Junior", "Mid", "Senior"] : List String) ∧
  0 ≤ r.last_service_days ∧ r.last_service_days ≤ 1000 ∧
  r.fault_code ∈ (["None", "E101", "E202"] : List String) ∧
  0 ≤ r.working_hours ∧ r.working_hours ≤ 50000

instance (r : RawInputs) : Decidable r.valid := by
  unfold RawInputs.valid; infer_instance

/-- Feature engineering, app.py line 67: stress_index = torque * vibration. -/
def stress_index (r : RawInputs) : ℚ := r.torque * r.vibration

/-- Feature engineering, app.py line 68: rolling_avg_temp = temp (single input case). -/
def rolling_avg_temp (r : RawInputs) : ℚ := r.temp

/-- Feature engineering, app.py line 69: machine_age = working_hours. -/
def machine_age (r : RawInputs) : ℤ := r.working_hours

/-- The Python dictionary exp_map of app.py line 71.  Lookup of a key outside
the dictionary raises KeyError in Python, modelled here by none. -/
def exp_map (s : String) : Option ℤ :=
  if s = "Junior" then some 1
  else if s = "Mid" then some 2
  else if s = "Senior" then some 3
  else none

/-- The single-row input DataFrame of app.py lines 77 to 94, as an association
list in the exact column order of the source.  The whole construction fails
(none) when the operator experience lookup of line 72 raises. -/
def input_df (r : RawInputs) : Option (List (String × Value)) :=
  (exp_map r.operator_exp).map fun operator_level =>
    [("Machine_Model", Value.cat r.machine_model),
     ("Avg_Temperature", Value.num r.temp),
     ("Vibration_Level", Value.num r.vibration),
     ("Rotating_Speed", Value.num r.rot_speed),
     ("Voltage_Fluctuation", Value.num r.voltage),
     ("Torque_Nm", Value.num r.torque),
     ("Oil_Viscosity", Value.num r.oil_viscosity),
     ("Ambient_Humidity", Value.num r.humidity),
     ("Operator_Experience", Value.cat r.operator_exp),
     ("Last_Service_Days", Value.int r.last_service_days),
     ("Fault_Code", Value.cat r.fault_code),
     ("Working_Hours_Total", Value.int r.working_hours),
     ("Rolling_Avg_Temp", Value.num (rolling_avg_temp r)),
     ("Stress_Index", Value.num (stress_index r)),
     ("Machine_Age", Value.int (machine_age r)),
     ("Operator_Experience_Level", Value.int operator_level)]

/-- The Observation column names of specification section 3, in table order.
Written from the words of the specification, to be compared with input_df. -/
def observationColumns : List String :=
  ["Machine_Model", "Avg_Temperature", "Vibration_Level", "Rotating_Speed",
   "Voltage_Fluctuation", "Torque_Nm", "Oil_Viscosity", "Ambient_Humidity",
   "Operator_Experience", "Last_Service_Days", "Fault_Code",
   "Working_Hours_Total", "Rolling_Avg_Temp", "Stress_Index", "Machine_Age",
   "Operator_Experience_Level"]

/-- The machine health verdict of app.py lines 126 to 129. -/
inductive HealthStatus : Type
  | healthy
  | highRisk
deriving DecidableEq, Repr

/-- The health-status branch of app.py lines 126 to 129: class 0 is healthy,
every other predicted value falls to the else branch. -/
def healthStatus (c : ℤ) : HealthStatus :=
  if c = 0 then HealthStatus.healthy else HealthStatus.highRisk

/-- The tiered remaining-useful-life advisory of app.py lines 131 to 136. -/
inductive RulTier : Type
  | sufficient
  | preventive
  | critical
deriving DecidableEq, Repr

/-- The tier branching of app.py lines 131 to 136: if rul > 1000 then info,
elif rul > 300 then warning, else error. -/
def rulTier (rul : ℚ) : RulTier :=
  if rul > 1000 then RulTier.sufficient
  else if rul > 300 then RulTier.preventive
  else RulTier.critical

/-- C1: the tiered advisory is selected exactly by the thresholds: rul > 1000
gives the sufficient tier, 300 < rul and rul ≤ 1000 gives the preventive tier,
rul ≤ 300 gives the critical tier; in particular 1000 falls in the middle tier
and 300 falls in the critical tier. -/
theorem rul_tier_thresholds :
    (∀ rul : ℚ,
      (rulTier rul = RulTier.sufficient ↔ 1000 < rul) ∧
      (rulTier rul = RulTier.preventive ↔ 300 < rul ∧ rul ≤ 1000) ∧
      (rulTier rul = RulTier.critical ↔ rul ≤ 300)) ∧
    rulTier 1000 = RulTier.preventive ∧ rulTier 300 = RulTier.critical := by
  refine ⟨fun rul => ?_, by decide, by decide⟩
  unfold rulTier
  split_ifs with h1 h2
  · exact ⟨iff_of_true rfl h1,
      iff_of_false (by decide) (fun h => absurd h1 (not_lt.mpr h.2)),
      iff_of_false (by decide) (not_le.mpr (by linarith))⟩
  · exact ⟨iff_of_false (by decide) h1,
      iff_of_true rfl ⟨h2, not_lt.mp h1⟩,
      iff_of_false (by decide) (not_le.mpr h2)⟩
  · exact ⟨iff_of_false (by decide) h1,
      iff_of_false (by decide) (fun h => h2 h.1),
      iff_of_true rfl (not_lt.mp h2)⟩

/-- C3: exp_map sends Junior to 1, Mid to 2, Senior to 3, and for every other
string the lookup produces no level; when the lookup produces no level the
whole DataFrame construction fails. -/
theorem exp_map_mapping :
    (exp_map "Junior" = some 1 ∧ exp_map "Mid" = some 2 ∧
      exp_map "Senior" = some 3) ∧
    (∀ s : String, s ≠ "Junior" → s ≠ "Mid" → s ≠ "Senior" →
      exp_map s = none) ∧
    (∀ r : RawInputs, exp_map r.operator_exp = none → input_df r = none) := by
  refine ⟨⟨by decide, by decide, by decide⟩, fun s h1 h2 h3 => ?_, fun r h => ?_⟩
  · simp [exp_map, h1, h2, h3]
  · simp [input_df, h]

/-- Witness for C3 at the concrete out-of-dictionary string Expert. -/
theorem exp_map_mapping_witness :
    exp_map "Junior" = some 1 ∧ exp_map "Expert" = none :=
  ⟨exp_map_mapping.1.1,
   exp_map_mapping.2.1 "Expert" (by decide) (by decide) (by decide)⟩

/-- C10: the status is Healthy exactly when the predicted class equals 0; any
other predicted value, not only 1, is presented as high risk. -/
theorem health_status_branch :
    (∀ c : ℤ, healthStatus c = HealthStatus.healthy ↔ c = 0) ∧
    (∀ c : ℤ, c ≠ 0 → healthStatus c = HealthStatus.highRisk) ∧
    healthStatus 2 = HealthStatus.highRisk ∧
    healthStatus (-1) = HealthStatus.highRisk := by
  refine ⟨fun c => ?_, fun c h => ?_, by decide, by decide⟩
  · unfold healthStatus; split_ifs with h <;> simp [h]
  · unfold healthStatus; simp [h]

/-- Witness for C10 at the out-of-range class value 2. -/
theorem health_status_branch_witness :
    (2 : ℤ) ≠ 0 ∧ healthStatus 2 = HealthStatus.highRisk :=
  ⟨by decide, health_status_branch.2.1 2 (by decide)⟩

/-- On a valid input the operator-experience lookup of line 72 succeeds. -/
lemma exp_map_valid (r : RawInputs) (h : r.valid) :
    ∃ lvl : ℤ, exp_map r.operator_exp = some lvl := by
  have hmem := h.2.2.2.2.2.2.2.2.2.2.2.2.2.2.2.1
  simp only [List.mem_cons, List.not_mem_nil, or_false] at hmem
  rcases hmem with h1 | h1 | h1
  · exact ⟨1, by simp [exp_map, h1]⟩
  · exact ⟨2, by simp [exp_map, h1]⟩
  · exact ⟨3, by simp [exp_map, h1]⟩

/-- On a valid input the DataFrame construction succeeds and its row is the
literal sixteen-column association list of app.py lines 77 to 94. -/
lemma input_df_valid (r : RawInputs) (h : r.valid) :
    ∃ lvl : ℤ, exp_map r.operator_exp = some lvl ∧
      input_df r = some
        [("Machine_Model", Value.cat r.machine_model),
         ("Avg_Temperature", Value.num r.temp),
         ("Vibration_Level", Value.num r.vibration),
         ("Rotating_Speed", Value.num r.rot_speed),
         ("Voltage_Fluctuation", Value.num r.voltage),
         ("Torque_Nm", Value.num r.torque),
         ("Oil_Viscosity", Value.num r.oil_viscosity),
         ("Ambient_Humidity", Value.num r.humidity),
         ("Operator_Experience", Value.cat r.operator_exp),
         ("Last_Service_Days", Value.int r.last_service_days),
         ("Fault_Code", Value.cat r.fault_code),
         ("Working_Hours_Total", Value.int r.working_hours),
         ("Rolling_Avg_Temp", Value.num (rolling_avg_temp r)),
         ("Stress_Index", Value.num (stress_index r)),
         ("Machine_Age", Value.int (machine_age r)),
         ("Operator_Experience_Level", Value.int lvl)] := by
  obtain ⟨lvl, hlvl⟩ := exp_map_valid r h
  exact ⟨lvl, hlvl, by simp [input_df, hlvl]⟩

/-- C2: on every valid input the DataFrame cell Stress_Index holds exactly
Torque_Nm times Vibration_Level. -/
theorem stress_index_product (r : RawInputs) (h : r.valid) :
    ∃ df, input_df r = some df ∧
      df.lookup "Stress_Index" = some (Value.num (r.torque * r.vibration)) := by
  obtain ⟨lvl, _, hdf⟩ := input_df_valid r h
  exact ⟨_, hdf, by simp [List.lookup, stress_index]⟩

/-- Witness for C2 at the scenario-1 inputs of the specification. -/
theorem stress_index_product_witness :
    ∃ df, input_df
        { machine_model := "Model_A", temp := 50, vibration := 2,
          rot_speed := 1500, voltage := 5, torque := 100, oil_viscosity := 10,
          humidity := 40, operator_exp := "Senior", last_service_days := 30,
          fault_code := "None", working_hours := 1000 } = some df ∧
      df.lookup "Stress_Index" = some (Value.num (100 * 2)) :=
  stress_index_product _ (by decide)

/-- C4: on every valid input the DataFrame cell Machine_Age holds exactly
Working_Hours_Total and the cell Rolling_Avg_Temp holds exactly
Avg_Temperature. -/
theorem machine_age_rolling_avg (r : RawInputs) (h : r.valid) :
    ∃ df, input_df r = some df ∧
      df.lookup "Machine_Age" = some (Value.int r.working_hours) ∧
      df.lookup "Rolling_Avg_Temp" = some (Value.num r.temp) := by
  obtain ⟨lvl, _, hdf⟩ := input_df_valid r h
  exact ⟨_, hdf, by simp [List.lookup, machine_age],
    by simp [List.lookup, rolling_avg_temp]⟩

/-- Witness for C4 at the scenario-1 inputs of the specification. -/
theorem machine_age_rolling_avg_witness :
    ∃ df, input_df
        { machine_model := "Model_A", temp := 50, vibration := 2,
          rot_speed := 1500, voltage := 5, torque := 100, oil_viscosity := 10,
          humidity := 40, operator_exp := "Senior", last_service_days := 30,
          fault_code := "None", working_hours := 1000 } = some df ∧
      df.lookup "Machine_Age" = some (Value.int 1000) ∧
      df.lookup "Rolling_Avg_Temp" = some (Value.num 50) :=
  machine_age_rolling_avg _ (by decide)

/-- C5: on every valid input the Feature Engineer produces a record with
exactly the sixteen fields of section 3, in the exact column names and order
of section 3, with the derived fields given by the section 3 formulas; the
record is a function of the raw inputs alone. -/
theorem observation_schema (r : RawInputs) (h : r.valid) :
    ∃ df, input_df r = some df ∧
      df.map Prod.fst = observationColumns ∧
      df.length = 16 ∧
      df.lookup "Stress_Index" = some (Value.num (r.torque * r.vibration)) ∧
      df.lookup "Rolling_Avg_Temp" = some (Value.num r.temp) ∧
      df.lookup "Machine_Age" = some (Value.int r.working_hours) ∧
      ∃ lvl, exp_map r.operator_exp = some lvl ∧
        df.lookup "Operator_Experience_Level" = some (Value.int lvl) := by
  obtain ⟨lvl, hlvl, hdf⟩ := input_df_valid r h
  refine ⟨_, hdf, by simp [observationColumns], by simp, ?_, ?_, ?_, lvl, hlvl, ?_⟩ <;>
    simp [List.lookup, stress_index, rolling_avg_temp, machine_age]

/-- Witness for C5 at the scenario-1 inputs of the specification. -/
theorem observation_schema_witness :
    ∃ df, input_df
        { machine_model := "Model_A", temp := 50, vibration := 2,
          rot_speed := 1500, voltage := 5, torque := 100, oil_viscosity := 10,
          humidity := 40, operator_exp := "Senior", last_service_days := 30,
          fault_code := "None", working_hours := 1000 } = some df ∧
      df.map Prod.fst = observationColumns ∧
      df.length = 16 ∧
      df.lookup "Stress_Index" = some (Value.num (100 * 2)) ∧
      df.lookup "Rolling_Avg_Temp" = some (Value.num 50) ∧
      df.lookup "Machine_Age" = some (Value.int 1000) ∧
      ∃ lvl, exp_map "Senior" = some lvl ∧
        df.lookup "Operator_Experience_Level" = some (Value.int lvl) :=
  observation_schema _ (by decide)

/-- The fitted preprocessor artifact, a black box exposing transform
(specification section 2); its transform may fail with a shape or schema
error, modelled as Except. -/
structure Preprocessor : Type where
  transform : List (String × Value) → Except String (List ℚ)

/-- The classifier artifact, a black box exposing predict_proba and predict
(specification section 2).  The binary probability output is the pair of the
class-0 and class-1 probability masses; app.py line 104 takes the second
component.  The discrete prediction is an integer label (app.py line 105). -/
structure Classifier : Type where
  predict_proba : List ℚ → ℚ × ℚ
  predict : List ℚ → ℤ

/-- The remaining-useful-life regression artifact, a black box exposing
predict (specification section 2, app.py line 106). -/
structure RULModel : Type where
  predict : List ℚ → ℚ

/-- The three once-loaded artifacts of app.py lines 10 to 12. -/
structure Artifacts : Type where
  model : Classifier
  rul_model : RULModel
  preprocessor : Preprocessor

/-- What the explanation tab of app.py lines 141 to 164 shows: either the
SHAP waterfall plot of the attribution values, or the plain-text fallback
written by the except branch. -/
inductive ExplanationPanel : Type
  | waterfallPlot : List ℚ → ExplanationPanel
  | fallbackText : String → ExplanationPanel
deriving DecidableEq, Repr

/-- The try and except block of app.py lines 145 to 164: a successful
attribution is plotted, a failure of the SHAP call is caught locally and
replaced by the fallback text of line 164. -/
def renderExplanation (ex : Except String (List ℚ)) : ExplanationPanel :=
  match ex with
  | Except.ok vs => ExplanationPanel.waterfallPlot vs
  | Except.error _ =>
      ExplanationPanel.fallbackText
        "SHAP explanation not available for this model type."

/-- Everything the prediction cycle renders across the tabs: the failure
probability and predicted class with the health verdict (tab 1), the
remaining-useful-life estimate with its tier (tab 1), and the explanation
panel (tab 2). -/
structure RenderedOutput : Type where
  probability : ℚ
  predicted_class : ℤ
  health : HealthStatus
  rul : ℚ
  tier : RulTier
  explanation : ExplanationPanel

/-- One prediction cycle, app.py lines 62 to 164: build the DataFrame, run
the preprocessor transform, call the two models, render the verdicts and the
explanation.  The SHAP attribution call is the external collaborator ex.  A
KeyError in the feature engineering or an error of the transform propagates
uncaught and aborts the cycle with no partial results. -/
def predictionCycle (a : Artifacts) (ex : List ℚ → Except String (List ℚ))
    (r : RawInputs) : Except String RenderedOutput :=
  match input_df r with
  | none => Except.error "KeyError: operator experience not in exp_map"
  | some df =>
    match a.preprocessor.transform df with
    | Except.error e => Except.error e
    | Except.ok x =>
        Except.ok
          { probability := (a.model.predict_proba x).2
            predicted_class := a.model.predict x
            health := healthStatus (a.model.predict x)
            rul := a.rul_model.predict x
            tier := rulTier (a.rul_model.predict x)
            explanation := renderExplanation (ex x) }

/-- C6: when the SHAP attribution fails for the given classifier, the cycle
still succeeds, the explanation panel carries the plain-text fallback of
app.py line 164, and the probability, predicted class and RUL estimate are
still the model outputs, rendered unchanged. -/
theorem explain_failure_nonfatal (a : Artifacts)
    (ex : List ℚ → Except String (List ℚ)) (r : RawInputs)
    (df : List (String × Value)) (x : List ℚ) (e : String)
    (hdf : input_df r = some df)
    (hx : a.preprocessor.transform df = Except.ok x)
    (hex : ex x = Except.error e) :
    ∃ out, predictionCycle a ex r = Except.ok out ∧
      out.explanation = ExplanationPanel.fallbackText
        "SHAP explanation not available for this model type." ∧
      out.probability = (a.model.predict_proba x).2 ∧
      out.predicted_class = a.model.predict x ∧
      out.rul = a.rul_model.predict x := by
  refine ⟨{ probability := (a.model.predict_proba x).2
            predicted_class := a.model.predict x
            health := healthStatus (a.model.predict x)
            rul := a.rul_model.predict x
            tier := rulTier (a.rul_model.predict x)
            explanation := renderExplanation (ex x) }, ?_, ?_, rfl, rfl, rfl⟩
  · simp only [predictionCycle, hdf, hx]
  · simp only [renderExplanation, hex]

/-- C7: when the preprocessor transform fails with a schema error, the whole
prediction cycle aborts with that error and no partial results. -/
theorem schema_mismatch_fatal (a : Artifacts)
    (ex : List ℚ → Except String (List ℚ)) (r : RawInputs)
    (df : List (String × Value)) (e : String)
    (hdf : input_df r = some df)
    (hx : a.preprocessor.transform df = Except.error e) :
    predictionCycle a ex r = Except.error e := by
  simp only [predictionCycle, hdf, hx]

/-- C8: when the classifier respects the probability-distribution contract of
predict_proba and the binary-label contract of predict, the rendered failure
probability lies in the closed interval from 0 to 1 and the predicted class is
0 or 1. -/
theorem inference_output_ranges (a : Artifacts)
    (ex : List ℚ → Except String (List ℚ)) (r : RawInputs)
    (df : List (String × Value)) (x : List ℚ)
    (hdf : input_df r = some df)
    (hx : a.preprocessor.transform df = Except.ok x)
    (h0 : 0 ≤ (a.model.predict_proba x).1)
    (h1 : 0 ≤ (a.model.predict_proba x).2)
    (hsum : (a.model.predict_proba x).1 + (a.model.predict_proba x).2 = 1)
    (hbin : a.model.predict x = 0 ∨ a.model.predict x = 1) :
    ∃ out, predictionCycle a ex r = Except.ok out ∧
      0 ≤ out.probability ∧ out.probability ≤ 1 ∧
      (out.predicted_class = 0 ∨ out.predicted_class = 1) := by
  refine ⟨{ probability := (a.model.predict_proba x).2
            predicted_class := a.model.predict x
            health := healthStatus (a.model.predict x)
            rul := a.rul_model.predict x
            tier := rulTier (a.rul_model.predict x)
            explanation := renderExplanation (ex x) },
    by simp only [predictionCycle, hdf, hx], h1, by simp; linarith, hbin⟩

/-- A demonstration classifier obeying the binary contracts, for witnesses. -/
def demoClassifier : Classifier where
  predict_proba := fun _ => (1 / 2, 1 / 2)
  predict := fun _ => 0

/-- A demonstration regression model, for witnesses. -/
def demoRULModel : RULModel where
  predict := fun _ => 500

/-- A demonstration preprocessor whose transform always succeeds. -/
def demoPreprocessor : Preprocessor where
  transform := fun _ => Except.ok [1]

/-- A demonstration preprocessor whose transform always fails with a schema
error, the failure mode of specification section 4.2. -/
def mismatchPreprocessor : Preprocessor where
  transform := fun _ => Except.error "ValueError: columns are missing"

/-- Demonstration artifacts with the succeeding preprocessor. -/
def demoArtifacts : Artifacts where
  model := demoClassifier
  rul_model := demoRULModel
  preprocessor := demoPreprocessor

/-- Demonstration artifacts with the failing preprocessor. -/
def mismatchArtifacts : Artifacts where
  model := demoClassifier
  rul_model := demoRULModel
  preprocessor := mismatchPreprocessor

/-- A SHAP collaborator that always fails, as for a non-tree model. -/
def failingExplain : List ℚ → Except String (List ℚ) :=
  fun _ => Except.error "SHAP TreeExplainer does not support this model"

/-- The scenario-1 raw inputs of specification section 8. -/
def demoRaw : RawInputs where
  machine_model := "Model_A"
  temp := 50
  vibration := 2
  rot_speed := 1500
  voltage := 5
  torque := 100
  oil_viscosity := 10
  humidity := 40
  operator_exp := "Senior"
  last_service_days := 30
  fault_code := "None"
  working_hours := 1000

/-- The DataFrame row produced from the scenario-1 inputs. -/
def demoDf : List (String × Value) := (input_df demoRaw).getD []

/-- Witness for C6: with a failing SHAP collaborator the concrete cycle still
renders the predictions and shows the fallback text. -/
theorem explain_failure_nonfatal_witness :
    ∃ out, predictionCycle demoArtifacts failingExplain demoRaw =
        Except.ok out ∧
      out.explanation = ExplanationPanel.fallbackText
        "SHAP explanation not available for this model type." ∧
      out.probability = (demoArtifacts.model.predict_proba [1]).2 ∧
      out.predicted_class = demoArtifacts.model.predict [1] ∧
      out.rul = demoArtifacts.rul_model.predict [1] :=
  explain_failure_nonfatal demoArtifacts failingExplain demoRaw demoDf [1]
    "SHAP TreeExplainer does not support this model" rfl rfl rfl

/-- Witness for C7: the concrete cycle with the failing preprocessor aborts
with its schema error. -/
theorem schema_mismatch_fatal_witness :
    predictionCycle mismatchArtifacts failingExplain demoRaw =
      Except.error "ValueError: columns are missing" :=
  schema_mismatch_fatal mismatchArtifacts failingExplain demoRaw demoDf
    "ValueError: columns are missing" rfl rfl

/-- Witness for C8 at the demonstration artifacts and scenario-1 inputs. -/
theorem inference_output_ranges_witness :
    ∃ out, predictionCycle demoArtifacts failingExplain demoRaw =
        Except.ok out ∧
      0 ≤ out.probability ∧ out.probability ≤ 1 ∧
      (out.predicted_class = 0 ∨ out.predicted_class = 1) :=
  inference_output_ranges demoArtifacts failingExplain demoRaw demoDf [1]
    rfl rfl (by norm_num [demoArtifacts, demoClassifier])
    (by norm_num [demoArtifacts, demoClassifier])
    (by norm_num [demoArtifacts, demoClassifier]) (Or.inl rfl)

/-- The artifact store, specification section 6: three named opaque blobs
loaded by identifier at startup; each load may fail with a file or
deserialization error, modelled as Except. -/
structure ArtifactStore : Type where
  best_model : Except String Classifier
  rul_model : Except String RULModel
  preprocessor : Except String Preprocessor

/-- The one-time initialization of app.py lines 10 to 12, in source order:
best_model.pkl, then rul_model.pkl, then preprocessor.pkl.  The first failing
load aborts the script with its error. -/
def loadArtifacts (s : ArtifactStore) : Except String Artifacts :=
  match s.best_model with
  | Except.error e => Except.error e
  | Except.ok m =>
    match s.rul_model with
    | Except.error e => Except.error e
    | Except.ok rm =>
      match s.preprocessor with
      | Except.error e => Except.error e
      | Except.ok p => Except.ok ⟨m, rm, p⟩

/-- The outcome of one run of the script: aborted during artifact loading
before any widget exists, or the idle prompt of app.py line 180 when the
predict button was not pressed, or the rendered prediction cycle. -/
inductive AppOutcome : Type
  | aborted : String → AppOutcome
  | prompt : AppOutcome
  | rendered : Except String RenderedOutput → AppOutcome

/-- One run of app.py: artifact loading first (lines 10 to 12), then input
collection and, only when the predict button is pressed, the prediction
cycle (line 62).  The pressed argument carries the raw inputs exactly when
the button was pressed. -/
def runApp (s : ArtifactStore) (ex : List ℚ → Except String (List ℚ))
    (pressed : Option RawInputs) : AppOutcome :=
  match loadArtifacts s with
  | Except.error e => AppOutcome.aborted e
  | Except.ok a =>
    match pressed with
    | none => AppOutcome.prompt
    | some r => AppOutcome.rendered (predictionCycle a ex r)

/-- C9: artifact loading happens before any input is accepted, and when any
of the three artifacts fails to load the run aborts: no prompt is shown and
no prediction cycle runs, whatever inputs would have been supplied. -/
theorem artifact_load_failure_fatal (s : ArtifactStore)
    (ex : List ℚ → Except String (List ℚ)) (pressed : Option RawInputs)
    (h : (∃ e, s.best_model = Except.error e) ∨
         (∃ e, s.rul_model = Except.error e) ∨
         (∃ e, s.preprocessor = Except.error e)) :
    ∃ e, runApp s ex pressed = AppOutcome.aborted e := by
  unfold runApp loadArtifacts
  rcases hm : s.best_model with e | m
  · exact ⟨e, rfl⟩
  rcases hr : s.rul_model with e | rm
  · exact ⟨e, rfl⟩
  rcases hp : s.preprocessor with e | p
  · exact ⟨e, rfl⟩
  exfalso
  rcases h with ⟨e, he⟩ | ⟨e, he⟩ | ⟨e, he⟩
  · rw [hm] at he; exact Except.noConfusion he
  · rw [hr] at he; exact Except.noConfusion he
  · rw [hp] at he; exact Except.noConfusion he

/-- A demonstration store whose preprocessor artifact is missing. -/
def missingStore : ArtifactStore where
  best_model := Except.ok demoClassifier
  rul_model := Except.ok demoRULModel
  preprocessor := Except.error "FileNotFoundError: preprocessor.pkl"

/-- Witness for C9: with the preprocessor artifact missing, the run aborts
even though the predict button would have been pressed with valid inputs. -/
theorem artifact_load_failure_fatal_witness :
    ∃ e, runApp missingStore failingExplain (some demoRaw) =
      AppOutcome.aborted e :=
  artifact_load_failure_fatal missingStore failingExplain (some demoRaw)
    (Or.inr (Or.inr ⟨"FileNotFoundError: preprocessor.pkl", rfl⟩))

end PredMaint
